import Mathlib

/-
Shallow embedding of the ledger core of MitrickX/OTUS-rust-homeworks.

Sources embedded:
- src/bank_channel/server/src/bank.rs            (Bank, BankError, the mutation API)
- src/bank_srv_cl/server/src/bank/log.rs         (OperationsLog; the bank_channel
  variant declares the same log module with struct-variant OperationKind, as its
  tests show; the per-account indexing logic is the one of this file)
- src/bank_srv_cl/src/bank/account.rs            (Account, AccountID)
- src/bank_channel/server/src/server/repository.rs  (namespace BankChannel)
- src/bank_async/server/src/server/repository.rs    (namespace BankAsync)

Modelling conventions:
- u64 values are Nat; i64 values are Int together with explicit wrap-around
  (two's complement) at the operations the Rust code performs on i64.
- HashMap is an association list with lookup/insert semantics (insert replaces
  the value of an existing key in place, otherwise appends the new entry).
- Opaque 128-bit identifiers (Uuid) are Nat: only equality is ever used.
- A &mut self method becomes State -> args -> result x State; error results
  carry the state the Rust code leaves behind (which may differ from the input
  state, e.g. the non-rolled-back transfer debit).
- A possible panic (Vec index out of bounds, Option::unwrap) is an outer
  Option layer: none = panic.
-/

namespace BankSpec

/-- AccountID(Uuid): opaque identifier, equality only. -/
abbrev AccountID := Nat

/-- OperationID(Uuid): opaque identifier, equality only. -/
abbrev OperationID := Nat

/-- Account { id, balance: u64 } from account.rs. -/
structure Account where
  id : AccountID
  balance : Nat
deriving Repr, DecidableEq

/-- BankError from bank.rs. -/
inductive BankError where
  | NotFound
  | AlreadyExists
  | ZeroAmount
  | InsufficientFunds
  | TransferToItself
deriving Repr, DecidableEq

/-- OperationKind from the log module (struct-variant form of bank_channel). -/
inductive OperationKind where
  | Register (id : AccountID) (balance : Nat)
  | Deposit (id : AccountID) (amount : Nat)
  | Withdraw (id : AccountID) (amount : Nat)
  | Transfer (sender_id : AccountID) (receiver_id : AccountID) (amount : Nat)
deriving Repr, DecidableEq

/-- Operation { id, kind } from log.rs. -/
structure Operation where
  id : OperationID
  kind : OperationKind
deriving Repr, DecidableEq

/-- Decidable equality for Except results, so concrete runs of the embedded
code can be checked by evaluation. -/
instance {ε α : Type} [DecidableEq ε] [DecidableEq α] : DecidableEq (Except ε α) := fun x y =>
  match x, y with
  | .error e, .error e' =>
      if h : e = e' then isTrue (by rw [h]) else isFalse fun hc => by cases hc; exact h rfl
  | .ok a, .ok a' =>
      if h : a = a' then isTrue (by rw [h]) else isFalse fun hc => by cases hc; exact h rfl
  | .error _, .ok _ => isFalse fun hc => by cases hc
  | .ok _, .error _ => isFalse fun hc => by cases hc

/-- HashMap::get on the association-list model. -/
def lookupA {β : Type} (k : Nat) : List (Nat × β) → Option β
  | [] => none
  | (k', v) :: rest => if k' = k then some v else lookupA k rest

/-- HashMap::insert on the association-list model: replaces the value of an
existing key in place, otherwise appends the new entry. -/
def insertA {β : Type} (k : Nat) (v : β) : List (Nat × β) → List (Nat × β)
  | [] => [(k, v)]
  | (k', v') :: rest => if k' = k then (k, v) :: rest else (k', v') :: insertA k v rest

/-- Rust u64 -> i64 cast (two's complement reinterpretation). -/
def u64ToI64 (u : Nat) : Int :=
  if u < 2 ^ 63 then (u : Int) else (u : Int) - 2 ^ 64

/-- Wrap an integer into the i64 range (release-mode overflow semantics). -/
def i64Wrap (x : Int) : Int :=
  (x + 2 ^ 63) % 2 ^ 64 - 2 ^ 63

/-- Rust i64 negation (wrapping). -/
def i64Neg (x : Int) : Int := i64Wrap (-x)

/-- Rust i64 addition (wrapping). -/
def i64Add (x y : Int) : Int := i64Wrap (x + y)

/-- Rust i64 -> u64 cast. -/
def i64ToU64 (x : Int) : Nat := (x % 2 ^ 64).toNat

/-- OperationsLog from log.rs: global sequence, id index, per-account index. -/
structure OperationsLog where
  accounts_operations : List (AccountID × List OperationID)
  operations_by_id : List (OperationID × Nat)
  operations : List Operation
deriving Repr, DecidableEq

/-- OperationsLog::new / Default. -/
def OperationsLog.empty : OperationsLog := ⟨[], [], []⟩

/-- OperationsLog::get: the id index gives a position into the global sequence.
The (unreachable) out-of-bounds panic is modelled as none. -/
def OperationsLog.get (log : OperationsLog) (operation_id : OperationID) : Option Operation :=
  (lookupA operation_id log.operations_by_id).bind fun idx => log.operations[idx]?

/-- OperationsLog::log_for_account: entry(account_id).or_default().push(operation_id). -/
def logForAccount (account_id : AccountID) (operation_id : OperationID)
    (m : List (AccountID × List OperationID)) : List (AccountID × List OperationID) :=
  insertA account_id ((lookupA account_id m).getD [] ++ [operation_id]) m

/-- OperationsLog::log_operation from src/bank_srv_cl/server/src/bank/log.rs
(lines 88-107): append to the global sequence, index by id, then index by every
referenced account (sender first, then receiver, for Transfer). -/
def OperationsLog.log_operation (log : OperationsLog) (operation : Operation) : OperationsLog :=
  let operation_idx := log.operations.length
  let log' : OperationsLog :=
    { log with
      operations_by_id := insertA operation.id operation_idx log.operations_by_id
      operations := log.operations ++ [operation] }
  match operation.kind with
  | .Register account_id _ =>
      { log' with accounts_operations := logForAccount account_id operation.id log'.accounts_operations }
  | .Deposit account_id _ =>
      { log' with accounts_operations := logForAccount account_id operation.id log'.accounts_operations }
  | .Withdraw account_id _ =>
      { log' with accounts_operations := logForAccount account_id operation.id log'.accounts_operations }
  | .Transfer sender_id receiver_id _ =>
      { log' with accounts_operations :=
          logForAccount receiver_id operation.id (logForAccount sender_id operation.id log'.accounts_operations) }

/-- OperationsLog::log: the fresh random OperationID is threaded as an argument. -/
def OperationsLog.log (log : OperationsLog) (operation_kind : OperationKind)
    (operation_id : OperationID) : OperationID × OperationsLog :=
  (operation_id, log.log_operation ⟨operation_id, operation_kind⟩)

/-- The map-unwrap in get_account_operations: looks every id up, panics (none)
if any lookup fails. -/
def mapGet (g : OperationID → Option Operation) : List OperationID → Option (List Operation)
  | [] => some []
  | oid :: rest =>
    match g oid with
    | none => none
    | some op => (mapGet g rest).map fun ops => op :: ops

/-- OperationsLog::get_all_operations: the global sequence in insertion order. -/
def OperationsLog.get_all_operations (log : OperationsLog) : List Operation :=
  log.operations

/-- OperationsLog::get_account_operations: the per-account id index mapped
through get, with unwrap (none = panic). -/
def OperationsLog.get_account_operations (log : OperationsLog) (account_id : AccountID) :
    Option (List Operation) :=
  mapGet log.get ((lookupA account_id log.accounts_operations).getD [])

/-- Bank { accounts, operations_log } from bank_channel/server/src/bank.rs. -/
structure Bank where
  accounts : List (AccountID × Account)
  operations_log : OperationsLog
deriving Repr, DecidableEq

/-- Bank::default(). -/
def Bank.default : Bank := ⟨[], OperationsLog.empty⟩

/-- Bank::do_register_account (bank.rs lines 71-79). -/
def Bank.do_register_account (b : Bank) (account : Account) : Except BankError Unit × Bank :=
  if (lookupA account.id b.accounts).isSome then (.error .AlreadyExists, b)
  else (.ok (), { b with accounts := insertA account.id account b.accounts })

/-- Bank::register_account (bank.rs lines 81-90). -/
def Bank.register_account (b : Bank) (account : Account) (oid : OperationID) :
    Except BankError OperationID × Bank :=
  match b.do_register_account account with
  | (.error e, b') => (.error e, b')
  | (.ok _, b') =>
      (.ok oid,
       { b' with operations_log :=
           b'.operations_log.log_operation ⟨oid, .Register account.id account.balance⟩ })

/-- Bank::get_balance (bank.rs lines 96-101). -/
def Bank.get_balance (b : Bank) (id : AccountID) : Except BankError Nat :=
  match lookupA id b.accounts with
  | some account => .ok account.balance
  | none => .error .NotFound

/-- Bank::update_account_balance_by_amount (bank.rs lines 103-117): the single
signed-arithmetic primitive under deposit, withdraw and both transfer legs. -/
def Bank.update_account_balance_by_amount (b : Bank) (id : AccountID) (amount : Int) :
    Except BankError Unit × Bank :=
  if amount = 0 then (.error .ZeroAmount, b)
  else
    match lookupA id b.accounts with
    | none => (.error .NotFound, b)
    | some account =>
      let result_balance := i64Add (u64ToI64 account.balance) amount
      if result_balance < 0 then (.error .InsufficientFunds, b)
      else (.ok (),
        { b with accounts := insertA id { account with balance := i64ToU64 result_balance } b.accounts })

/-- Bank::do_deposit (bank.rs lines 119-121). -/
def Bank.do_deposit (b : Bank) (id : AccountID) (amount : Nat) : Except BankError Unit × Bank :=
  b.update_account_balance_by_amount id (u64ToI64 amount)

/-- Bank::deposit (bank.rs lines 123-130). -/
def Bank.deposit (b : Bank) (id : AccountID) (amount : Nat) (oid : OperationID) :
    Except BankError OperationID × Bank :=
  match b.do_deposit id amount with
  | (.error e, b') => (.error e, b')
  | (.ok _, b') =>
      (.ok oid, { b' with operations_log := b'.operations_log.log_operation ⟨oid, .Deposit id amount⟩ })

/-- Bank::do_withdraw (bank.rs lines 132-134). -/
def Bank.do_withdraw (b : Bank) (id : AccountID) (amount : Nat) : Except BankError Unit × Bank :=
  b.update_account_balance_by_amount id (i64Neg (u64ToI64 amount))

/-- Bank::withdraw (bank.rs lines 136-143). -/
def Bank.withdraw (b : Bank) (id : AccountID) (amount : Nat) (oid : OperationID) :
    Except BankError OperationID × Bank :=
  match b.do_withdraw id amount with
  | (.error e, b') => (.error e, b')
  | (.ok _, b') =>
      (.ok oid, { b' with operations_log := b'.operations_log.log_operation ⟨oid, .Withdraw id amount⟩ })

/-- Bank::do_transfer (bank.rs lines 145-159): self-transfer guard first, then
debit the sender, then credit the receiver; a failed credit leaves the debit
in place. -/
def Bank.do_transfer (b : Bank) (sender_id receiver_id : AccountID) (amount : Nat) :
    Except BankError Unit × Bank :=
  if sender_id = receiver_id then (.error .TransferToItself, b)
  else
    match b.update_account_balance_by_amount sender_id (i64Neg (u64ToI64 amount)) with
    | (.error e, b') => (.error e, b')
    | (.ok _, b') => b'.update_account_balance_by_amount receiver_id (u64ToI64 amount)

/-- Bank::transfer (bank.rs lines 161-176). -/
def Bank.transfer (b : Bank) (sender_id receiver_id : AccountID) (amount : Nat)
    (oid : OperationID) : Except BankError OperationID × Bank :=
  match b.do_transfer sender_id receiver_id amount with
  | (.error e, b') => (.error e, b')
  | (.ok _, b') =>
      (.ok oid,
       { b' with operations_log :=
           b'.operations_log.log_operation ⟨oid, .Transfer sender_id receiver_id amount⟩ })

/-- Bank::get_all_operations. -/
def Bank.get_all_operations (b : Bank) : List Operation :=
  b.operations_log.get_all_operations

/-- Bank::get_account_operations. -/
def Bank.get_account_operations (b : Bank) (account_id : AccountID) : Option (List Operation) :=
  b.operations_log.get_account_operations account_id

/-- One iteration of the Bank::restore loop (bank.rs lines 43-66): re-apply the
do-level mutation for the operation kind (Register recreates the account with
the exact original id and balance), then log the original operation verbatim;
abort on the first failure. -/
def Bank.restore_step (b : Bank) (operation : Operation) : Except BankError Bank :=
  let applied : Except BankError Unit × Bank :=
    match operation.kind with
    | .Register id balance => b.do_register_account { id := id, balance := balance }
    | .Deposit id amount => b.do_deposit id amount
    | .Withdraw id amount => b.do_withdraw id amount
    | .Transfer sender_id receiver_id amount => b.do_transfer sender_id receiver_id amount
  match applied with
  | (.error e, _) => .error e
  | (.ok _, b') => .ok { b' with operations_log := b'.operations_log.log_operation operation }

/-- The Bank::restore loop from an intermediate bank. -/
def Bank.restoreFrom (b : Bank) : List Operation → Except BankError Bank
  | [] => .ok b
  | op :: rest =>
    match Bank.restore_step b op with
    | .error e => .error e
    | .ok b' => Bank.restoreFrom b' rest

/-- Bank::restore (bank.rs lines 40-69): replay a sequence of operations into a
brand-new bank, failing fast on the first step that would not have succeeded. -/
def Bank.restore (operations : List Operation) : Except BankError Bank :=
  Bank.restoreFrom Bank.default operations

/-- RepositoryError from repository.rs. -/
inductive RepositoryError where
  | InvalidBankId
  | BankError (e : BankError)
deriving Repr, DecidableEq

/-- Repository { banks, current_bank } from repository.rs; identical shape in
the bank_channel and bank_async variants. -/
structure Repository where
  banks : List Bank
  current_bank : Nat
deriving Repr, DecidableEq

/-- Repository::current_bank_id (identical in both variants). -/
def Repository.current_bank_id (r : Repository) : Nat :=
  if r.banks.isEmpty then 0 else r.current_bank + 1

/-- Repository::new_bank (identical in both variants). -/
def Repository.new_bank (r : Repository) : Nat × Repository :=
  let banks := r.banks ++ [Bank.default]
  let current_bank := banks.length - 1
  (current_bank + 1, { banks := banks, current_bank := current_bank })

/-- Repository::change_bank (identical in both variants, bank_channel
repository.rs lines 45-54): reject ids outside [1, len(banks)] before any
mutation, else select the 0-based index. -/
def Repository.change_bank (r : Repository) (id : Nat) :
    Except RepositoryError Unit × Repository :=
  if id < 1 ∨ id > r.banks.length then (.error .InvalidBankId, r)
  else (.ok (), { r with current_bank := id - 1 })

/-- The lazy bank creation prelude: if the repository is empty, create bank 1. -/
def Repository.lazyInit (r : Repository) : Repository :=
  if r.banks.isEmpty then (r.new_bank).2 else r

/-- Run a bank-level action on the current bank and write the resulting bank
back; indexing an out-of-range current bank is a Rust panic, modelled none. -/
def Repository.onCurrentBank {α : Type} (r : Repository)
    (f : Bank → Except BankError α × Bank) :
    Option (Except RepositoryError α × Repository) :=
  (r.banks[r.current_bank]?).map fun bank =>
    let res := f bank
    (res.1.mapError RepositoryError.BankError,
     { r with banks := r.banks.set r.current_bank res.2 })

/-- Repository::register_account (identical in both variants: lazily creates
bank 1 on an empty repository, then registers a fresh account against the
current bank); the fresh AccountID and OperationID are threaded as arguments. -/
def Repository.register_account (r : Repository) (balance : Nat)
    (aid : AccountID) (oid : OperationID) :
    Option (Except RepositoryError (AccountID × OperationID) × Repository) :=
  (r.lazyInit).onCurrentBank fun bank =>
    let res := bank.register_account { id := aid, balance := balance } oid
    (res.1.map fun opid => (aid, opid), res.2)

namespace BankChannel

/-- bank_channel Repository::restore_bank (repository.rs lines 56-72): after
validating the id, replays the log of the CURRENT bank (src_bank is taken at
index current_bank, not id - 1) into a new bank appended and made current. -/
def restore_bank (r : Repository) (id : Nat) :
    Option (Except RepositoryError Unit × Repository) :=
  if id < 1 ∨ id > r.banks.length then some (.error .InvalidBankId, r)
  else
    (r.banks[r.current_bank]?).map fun src_bank =>
      match Bank.restore src_bank.get_all_operations with
      | .ok new_bank =>
          let banks := r.banks ++ [new_bank]
          (.ok (), { banks := banks, current_bank := banks.length - 1 })
      | .error e => (.error (.BankError e), r)

/-- bank_channel Repository::get_balance: indexes the current bank with no
emptiness check (a panic, none, on an empty repository); takes &self. -/
def get_balance (r : Repository) (id : AccountID) : Option (Except RepositoryError Nat) :=
  (r.banks[r.current_bank]?).map fun bank => (bank.get_balance id).mapError .BankError

/-- bank_channel Repository::deposit: no lazy creation, indexes the current
bank directly (panic, none, on an empty repository). -/
def deposit (r : Repository) (id : AccountID) (amount : Nat) (oid : OperationID) :
    Option (Except RepositoryError OperationID × Repository) :=
  r.onCurrentBank fun bank => bank.deposit id amount oid

/-- bank_channel Repository::withdraw: no lazy creation. -/
def withdraw (r : Repository) (id : AccountID) (amount : Nat) (oid : OperationID) :
    Option (Except RepositoryError OperationID × Repository) :=
  r.onCurrentBank fun bank => bank.withdraw id amount oid

/-- bank_channel Repository::transfer: no lazy creation. -/
def transfer (r : Repository) (sender_id receiver_id : AccountID) (amount : Nat)
    (oid : OperationID) : Option (Except RepositoryError OperationID × Repository) :=
  r.onCurrentBank fun bank => bank.transfer sender_id receiver_id amount oid

end BankChannel

namespace BankAsync

/-- bank_async Repository::restore_bank (repository.rs lines 56-71): after
validating the id, replays the log of the bank at index id - 1 (the target)
into a new bank appended and made current. -/
def restore_bank (r : Repository) (id : Nat) :
    Option (Except RepositoryError Unit × Repository) :=
  if id < 1 ∨ id > r.banks.length then some (.error .InvalidBankId, r)
  else
    (r.banks[id - 1]?).map fun src_bank =>
      match Bank.restore src_bank.get_all_operations with
      | .ok new_bank =>
          let banks := r.banks ++ [new_bank]
          (.ok (), { banks := banks, current_bank := banks.length - 1 })
      | .error e => (.error (.BankError e), r)

/-- bank_async Repository::get_balance (repository.rs lines 88-95): takes &mut
self and lazily creates bank 1 on an empty repository before querying. -/
def get_balance (r : Repository) (id : AccountID) :
    Option (Except RepositoryError Nat × Repository) :=
  let r := r.lazyInit
  (r.banks[r.current_bank]?).map fun bank =>
    ((bank.get_balance id).mapError .BankError, r)

/-- bank_async Repository::deposit: lazily creates bank 1 first. -/
def deposit (r : Repository) (id : AccountID) (amount : Nat) (oid : OperationID) :
    Option (Except RepositoryError OperationID × Repository) :=
  (r.lazyInit).onCurrentBank fun bank => bank.deposit id amount oid

/-- bank_async Repository::withdraw: lazily creates bank 1 first. -/
def withdraw (r : Repository) (id : AccountID) (amount : Nat) (oid : OperationID) :
    Option (Except RepositoryError OperationID × Repository) :=
  (r.lazyInit).onCurrentBank fun bank => bank.withdraw id amount oid

/-- bank_async Repository::transfer: lazily creates bank 1 first. -/
def transfer (r : Repository) (sender_id receiver_id : AccountID) (amount : Nat)
    (oid : OperationID) : Option (Except RepositoryError OperationID × Repository) :=
  (r.lazyInit).onCurrentBank fun bank => bank.transfer sender_id receiver_id amount oid

/-- bank_async Repository::get_account_operations (takes &self): empty result
on an empty repository, no bank creation. -/
def get_account_operations (r : Repository) (id : AccountID) : Option (List Operation) :=
  if r.banks.isEmpty then some []
  else (r.banks[r.current_bank]?).bind fun bank => bank.get_account_operations id

/-- bank_async Repository::get_all_operations (takes &self): empty result on
an empty repository, no bank creation. -/
def get_all_operations (r : Repository) : Option (List Operation) :=
  if r.banks.isEmpty then some []
  else (r.banks[r.current_bank]?).map fun bank => bank.get_all_operations

end BankAsync

/-- A typed, already-parsed mutating command against one bank, carrying the
randomly generated identifiers (fresh AccountID for register via the Account
argument, fresh OperationID for the log entry) as data. -/
inductive Cmd where
  | register (account : Account) (oid : OperationID)
  | deposit (id : AccountID) (amount : Nat) (oid : OperationID)
  | withdraw (id : AccountID) (amount : Nat) (oid : OperationID)
  | transfer (sender_id receiver_id : AccountID) (amount : Nat) (oid : OperationID)
deriving Repr, DecidableEq

/-- The OperationKind a command logs when it succeeds. -/
def Cmd.opKind : Cmd → OperationKind
  | .register a _ => .Register a.id a.balance
  | .deposit id amount _ => .Deposit id amount
  | .withdraw id amount _ => .Withdraw id amount
  | .transfer s r amount _ => .Transfer s r amount

/-- Dispatch a command to the corresponding Bank method. -/
def Bank.applyCmd (b : Bank) : Cmd → Except BankError OperationID × Bank
  | .register a oid => b.register_account a oid
  | .deposit id amount oid => b.deposit id amount oid
  | .withdraw id amount oid => b.withdraw id amount oid
  | .transfer s r amount oid => b.transfer s r amount oid

/-- Banks whose whole history is a sequence of successful
register_account/deposit/withdraw/transfer calls starting from Bank::default. -/
inductive Reachable : Bank → Prop where
  | base : Reachable Bank.default
  | step {b b' : Bank} {c : Cmd} {oid : OperationID} :
      Reachable b → b.applyCmd c = (.ok oid, b') → Reachable b'

/-- Rebuild an OperationsLog by replaying log_operation over a list, from
empty; every reachable bank's log has this shape. -/
def buildLog (ops : List Operation) : OperationsLog :=
  ops.foldl OperationsLog.log_operation OperationsLog.empty

/-- The specification predicate of claim C7: the kind references account a
(the registered/deposited/withdrawn account, or the transfer sender or
receiver). -/
def OperationKind.references (a : AccountID) : OperationKind → Bool
  | .Register id _ => id = a
  | .Deposit id _ => id = a
  | .Withdraw id _ => id = a
  | .Transfer s r _ => s = a || r = a

/-- The per-account index entries log_operation appends for one operation:
one id for Register/Deposit/Withdraw of a, one for each side of a Transfer
touching a (so two when sender = receiver = a). -/
def OperationKind.entriesFor (a : AccountID) (oid : OperationID) : OperationKind → List OperationID
  | .Register id _ => if a = id then [oid] else []
  | .Deposit id _ => if a = id then [oid] else []
  | .Withdraw id _ => if a = id then [oid] else []
  | .Transfer s r _ => (if a = s then [oid] else []) ++ (if a = r then [oid] else [])

/-- A concrete reachable bank: register account 1 with balance 100 (operation
id 10), then deposit 50 into it (operation id 11). -/
def bankW1 : Bank := (Bank.applyCmd Bank.default (.register ⟨1, 100⟩ 10)).2

/-- The concrete reachable bank after the deposit step. -/
def bankW : Bank := (Bank.applyCmd bankW1 (.deposit 1 50 11)).2

/-- Concrete bank for the C4 counterexample: a single account 1 with balance 5
and an empty log. -/
def bankC4 : Bank := ⟨[(1, ⟨1, 5⟩)], OperationsLog.empty⟩

/-- Concrete bank for the C10 counterexample: a single account 1 with balance 1
and an empty log. -/
def bankC10 : Bank := ⟨[(1, ⟨1, 1⟩)], OperationsLog.empty⟩

/-- Bank 1 of the C2 failing input: one logged operation (register of account
1 with balance 100, operation id 7). -/
def bankC2src : Bank := (Bank.register_account Bank.default ⟨1, 100⟩ 7).2

/-- Concrete repository for the C2 failing input: bank 1 holds a one-operation
log, bank 2 is empty and is the current bank. -/
def repoC2 : Repository := ⟨[bankC2src, Bank.default], 1⟩

lemma u64ToI64_zero : u64ToI64 0 = 0 := by norm_num [u64ToI64]

lemma i64Neg_zero : i64Neg 0 = 0 := by
  have h : ((2 : Int) ^ 63) % 2 ^ 64 = 2 ^ 63 := by decide
  simp [i64Neg, i64Wrap, h]

/-- A failing balance update leaves the bank unchanged. -/
lemma update_error_state (b : Bank) (id : AccountID) (amount : Int) (e : BankError) (b₁ : Bank)
    (h : b.update_account_balance_by_amount id amount = (.error e, b₁)) : b₁ = b := by
  unfold Bank.update_account_balance_by_amount at h
  split at h
  · simp only [Prod.mk.injEq] at h
    exact h.2.symm
  · split at h
    · simp only [Prod.mk.injEq] at h
      exact h.2.symm
    · dsimp only at h
      split at h
      · simp only [Prod.mk.injEq] at h
        exact h.2.symm
      · simp at h

/-- Characterization of a successful balance update. -/
lemma update_ok_state (b : Bank) (id : AccountID) (amount : Int) (b₁ : Bank)
    (h : b.update_account_balance_by_amount id amount = (.ok (), b₁)) :
    amount ≠ 0 ∧ ∃ acct, lookupA id b.accounts = some acct ∧
      0 ≤ i64Add (u64ToI64 acct.balance) amount ∧
      b₁ = { b with accounts := insertA id ⟨acct.id, i64ToU64 (i64Add (u64ToI64 acct.balance) amount)⟩ b.accounts } := by
  unfold Bank.update_account_balance_by_amount at h
  split at h
  · simp at h
  · rename_i hne
    split at h
    · simp at h
    · rename_i acct hacct
      dsimp only at h
      split at h
      · simp at h
      · rename_i hpos
        simp only [Prod.mk.injEq] at h
        exact ⟨hne, acct, hacct, by omega, h.2.symm⟩

/-- Claim C5: for a registered account, deposit of 0 and withdraw of 0 both
fail with ZeroAmount, log nothing, and leave the whole bank state unchanged. -/
theorem deposit_withdraw_zero_amount (b : Bank) (id : AccountID) (oid : OperationID)
    (_hreg : (lookupA id b.accounts).isSome = true) :
    b.deposit id 0 oid = (.error .ZeroAmount, b) ∧
    b.withdraw id 0 oid = (.error .ZeroAmount, b) := by
  constructor
  · simp [Bank.deposit, Bank.do_deposit, Bank.update_account_balance_by_amount, u64ToI64_zero]
  · simp [Bank.withdraw, Bank.do_withdraw, Bank.update_account_balance_by_amount,
      u64ToI64_zero, i64Neg_zero]

/-- Witness for C5 at a concrete bank holding account 1. -/
theorem deposit_withdraw_zero_amount_witness :
    Bank.deposit ⟨[(1, ⟨1, 100⟩)], OperationsLog.empty⟩ 1 0 5 =
      (.error .ZeroAmount, ⟨[(1, ⟨1, 100⟩)], OperationsLog.empty⟩) ∧
    Bank.withdraw ⟨[(1, ⟨1, 100⟩)], OperationsLog.empty⟩ 1 0 5 =
      (.error .ZeroAmount, ⟨[(1, ⟨1, 100⟩)], OperationsLog.empty⟩) :=
  deposit_withdraw_zero_amount ⟨[(1, ⟨1, 100⟩)], OperationsLog.empty⟩ 1 5 (by decide)

/-- Claim C6: a self-transfer of a positive amount always fails with
TransferToItself before any mutation or logging, whether or not the account
exists and whatever its balance. -/
theorem transfer_to_itself_always_fails (b : Bank) (id : AccountID) (amount : Nat)
    (oid : OperationID) (_hpos : 0 < amount) :
    b.transfer id id amount oid = (.error .TransferToItself, b) := by
  simp [Bank.transfer, Bank.do_transfer]

/-- Witness for C6 at a concrete bank and amount 50. -/
theorem transfer_to_itself_always_fails_witness :
    Bank.transfer ⟨[(1, ⟨1, 100⟩)], OperationsLog.empty⟩ 1 1 50 5 =
      (.error .TransferToItself, ⟨[(1, ⟨1, 100⟩)], OperationsLog.empty⟩) :=
  transfer_to_itself_always_fails ⟨[(1, ⟨1, 100⟩)], OperationsLog.empty⟩ 1 50 5 (by decide)

/-- Claim C9: transfer(id, id, 0) fails with TransferToItself, not ZeroAmount:
the self-transfer equality test precedes the zero-amount check of the
balance-update primitive. -/
theorem self_transfer_zero_precedence (b : Bank) (id : AccountID) (oid : OperationID) :
    b.transfer id id 0 oid = (.error .TransferToItself, b) := by
  simp [Bank.transfer, Bank.do_transfer]

/-- Claim C8: change_bank(id) fails with InvalidBankId exactly when id is
outside [1, number of banks], a failing call leaves the repository unchanged;
scenario: with three banks, after change_bank(2) a change_bank(5) fails and
the current bank remains 2. -/
theorem change_bank_invalid_id (r : Repository) (id : Nat) (r3 : Repository)
    (h3 : r3.banks.length = 3) :
    ((r.change_bank id).1 = .error .InvalidBankId ↔ ¬(1 ≤ id ∧ id ≤ r.banks.length)) ∧
    (¬(1 ≤ id ∧ id ≤ r.banks.length) → (r.change_bank id).2 = r) ∧
    ((r3.change_bank 2).2.change_bank 5 = (.error .InvalidBankId, (r3.change_bank 2).2) ∧
      ((r3.change_bank 2).2.change_bank 5).2.current_bank_id = 2) := by
  have hcond : (id < 1 ∨ id > r.banks.length) ↔ ¬(1 ≤ id ∧ id ≤ r.banks.length) := by omega
  have h2 : (r3.change_bank 2).2 = { r3 with current_bank := 1 } := by
    simp [Repository.change_bank, h3]
  refine ⟨?_, ?_, ?_, ?_⟩
  · rw [← hcond]
    unfold Repository.change_bank
    split
    · simp_all
    · simp_all
  · intro hout
    rw [← hcond] at hout
    have hout' : id = 0 ∨ r.banks.length < id := by omega
    simp [Repository.change_bank, hout']
  · rw [h2]
    simp [Repository.change_bank, h3]
  · rw [h2]
    have hne : ({ r3 with current_bank := 1 } : Repository).banks ≠ [] := by
      intro hnil
      rw [show ({ r3 with current_bank := 1 } : Repository).banks = r3.banks from rfl] at hnil
      rw [hnil] at h3
      simp at h3
    simp [Repository.change_bank, Repository.current_bank_id, h3, List.isEmpty_iff, hne]

/-- Witness for C8: a concrete out-of-range id on an empty repository and the
concrete three-bank scenario. -/
theorem change_bank_invalid_id_witness :
    ((Repository.change_bank ⟨[], 0⟩ 4).1 = .error .InvalidBankId ↔
      ¬(1 ≤ 4 ∧ 4 ≤ (⟨[], 0⟩ : Repository).banks.length)) ∧
    (¬(1 ≤ 4 ∧ 4 ≤ (⟨[], 0⟩ : Repository).banks.length) →
      (Repository.change_bank ⟨[], 0⟩ 4).2 = ⟨[], 0⟩) ∧
    ((Repository.change_bank (Repository.change_bank
        ⟨[Bank.default, Bank.default, Bank.default], 0⟩ 2).2 5 =
      (.error .InvalidBankId, (Repository.change_bank
        ⟨[Bank.default, Bank.default, Bank.default], 0⟩ 2).2)) ∧
      (Repository.change_bank (Repository.change_bank
        ⟨[Bank.default, Bank.default, Bank.default], 0⟩ 2).2 5).2.current_bank_id = 2) :=
  change_bank_invalid_id ⟨[], 0⟩ 4 ⟨[Bank.default, Bank.default, Bank.default], 0⟩ (by decide)

/-- Claim C2 failing input: in the bank_channel variant, restore_bank(1) on a
repository whose current bank is the empty bank 2 succeeds but appends a
replay of the CURRENT bank (empty bank 3), not of the target bank 1 whose log
is nonempty; the bank_async variant at the same input replays the target. -/
theorem restore_bank_replays_current_not_target :
    BankChannel.restore_bank repoC2 1 =
      some (.ok (), ⟨[bankC2src, Bank.default, Bank.default], 2⟩) ∧
    bankC2src.get_all_operations = [⟨7, .Register 1 100⟩] ∧
    Bank.default.get_all_operations = [] ∧
    BankAsync.restore_bank repoC2 1 =
      some (.ok (), ⟨[bankC2src, Bank.default, bankC2src], 2⟩) := by decide

/-- Claim C3 counterexample: on an empty repository, the bank_async pure
query get_balance DOES auto-create bank 1 (the claim says pure queries do
not), while the bank_channel mutating deposit does NOT auto-create a bank but
panics on the empty bank vector (the claim says every mutating call
auto-creates bank 1 first). -/
theorem lazy_create_policy_counterexample :
    BankAsync.get_balance ⟨[], 0⟩ 7 =
      some (.error (.BankError .NotFound), ⟨[Bank.default], 0⟩) ∧
    (⟨[Bank.default], 0⟩ : Repository).current_bank_id = 1 ∧
    BankChannel.deposit ⟨[], 0⟩ 1 5 9 = none := by decide

/-- Any balance update against the empty default bank fails and leaves the
bank unchanged. -/
lemma update_default (id : AccountID) (amt : Int) :
    ∃ e, Bank.update_account_balance_by_amount Bank.default id amt = (.error e, Bank.default) := by
  by_cases h : amt = 0
  · exact ⟨.ZeroAmount, by simp [Bank.update_account_balance_by_amount, h]⟩
  · exact ⟨.NotFound, by simp [Bank.update_account_balance_by_amount, h, Bank.default, lookupA]⟩

/-- A deposit against the empty default bank fails and leaves it unchanged. -/
lemma deposit_default (id : AccountID) (amount : Nat) (oid : OperationID) :
    ∃ e, Bank.deposit Bank.default id amount oid = (.error e, Bank.default) := by
  obtain ⟨e, he⟩ := update_default id (u64ToI64 amount)
  exact ⟨e, by simp [Bank.deposit, Bank.do_deposit, he]⟩

/-- A withdraw against the empty default bank fails and leaves it unchanged. -/
lemma withdraw_default (id : AccountID) (amount : Nat) (oid : OperationID) :
    ∃ e, Bank.withdraw Bank.default id amount oid = (.error e, Bank.default) := by
  obtain ⟨e, he⟩ := update_default id (i64Neg (u64ToI64 amount))
  exact ⟨e, by simp [Bank.withdraw, Bank.do_withdraw, he]⟩

/-- A transfer against the empty default bank fails and leaves it unchanged. -/
lemma transfer_default (sid rid : AccountID) (amount : Nat) (oid : OperationID) :
    ∃ e, Bank.transfer Bank.default sid rid amount oid = (.error e, Bank.default) := by
  by_cases hsr : sid = rid
  · exact ⟨.TransferToItself, by simp [Bank.transfer, Bank.do_transfer, hsr]⟩
  · obtain ⟨e, he⟩ := update_default sid (i64Neg (u64ToI64 amount))
    exact ⟨e, by simp [Bank.transfer, Bank.do_transfer, hsr, he]⟩

/-- Claim C3 amended: on an empty repository (any stored current index)
current_bank_id is 0; register_account lazily creates bank 1, succeeds
against it, and afterwards current_bank_id is 1 (both variants share this
code); in the bank_channel variant the other delegated calls, mutating or
not, do NOT auto-create a bank but index the empty bank vector (a panic);
in the bank_async variant deposit, withdraw, transfer AND the pure query
get_balance all auto-create bank 1, while the operation listings return an
empty result without creating a bank. -/
theorem lazy_create_policy_amended (cb : Nat) (balance amount : Nat)
    (aid id sid rid : AccountID) (oid : OperationID) :
    (⟨[], cb⟩ : Repository).current_bank_id = 0 ∧
    Repository.register_account ⟨[], cb⟩ balance aid oid =
      some (.ok (aid, oid),
        ⟨[⟨[(aid, ⟨aid, balance⟩)], OperationsLog.empty.log_operation ⟨oid, .Register aid balance⟩⟩], 0⟩) ∧
    (Repository.register_account ⟨[], cb⟩ balance aid oid).map (fun p => p.2.current_bank_id) =
      some 1 ∧
    BankChannel.get_balance ⟨[], cb⟩ id = none ∧
    BankChannel.deposit ⟨[], cb⟩ id amount oid = none ∧
    BankChannel.withdraw ⟨[], cb⟩ id amount oid = none ∧
    BankChannel.transfer ⟨[], cb⟩ sid rid amount oid = none ∧
    BankAsync.get_balance ⟨[], cb⟩ id =
      some (.error (.BankError .NotFound), ⟨[Bank.default], 0⟩) ∧
    (BankAsync.deposit ⟨[], cb⟩ id amount oid).map Prod.snd = some ⟨[Bank.default], 0⟩ ∧
    (BankAsync.withdraw ⟨[], cb⟩ id amount oid).map Prod.snd = some ⟨[Bank.default], 0⟩ ∧
    (BankAsync.transfer ⟨[], cb⟩ sid rid amount oid).map Prod.snd = some ⟨[Bank.default], 0⟩ ∧
    BankAsync.get_all_operations ⟨[], cb⟩ = some [] ∧
    BankAsync.get_account_operations ⟨[], cb⟩ id = some [] := by
  have hreg : Repository.register_account ⟨[], cb⟩ balance aid oid =
      some (.ok (aid, oid),
        ⟨[⟨[(aid, ⟨aid, balance⟩)], OperationsLog.empty.log_operation ⟨oid, .Register aid balance⟩⟩], 0⟩) := by
    simp [Repository.register_account, Repository.lazyInit, Repository.new_bank,
      Repository.onCurrentBank, Bank.register_account, Bank.do_register_account,
      Bank.default, lookupA, insertA, Except.map, Except.mapError]
  obtain ⟨e1, hd⟩ := deposit_default id amount oid
  obtain ⟨e2, hw⟩ := withdraw_default id amount oid
  obtain ⟨e3, ht⟩ := transfer_default sid rid amount oid
  refine ⟨by simp [Repository.current_bank_id], hreg, ?_, ?_, ?_, ?_, ?_, ?_, ?_, ?_, ?_, ?_, ?_⟩
  · rw [hreg]
    simp [Repository.current_bank_id]
  · simp [BankChannel.get_balance]
  · simp [BankChannel.deposit, Repository.onCurrentBank]
  · simp [BankChannel.withdraw, Repository.onCurrentBank]
  · simp [BankChannel.transfer, Repository.onCurrentBank]
  · simp [BankAsync.get_balance, Repository.lazyInit, Repository.new_bank,
      Bank.get_balance, Bank.default, lookupA, Except.mapError]
  · simp [BankAsync.deposit, Repository.lazyInit, Repository.new_bank,
      Repository.onCurrentBank, hd]
  · simp [BankAsync.withdraw, Repository.lazyInit, Repository.new_bank,
      Repository.onCurrentBank, hw]
  · simp [BankAsync.transfer, Repository.lazyInit, Repository.new_bank,
      Repository.onCurrentBank, ht]
  · simp [BankAsync.get_all_operations]
  · simp [BankAsync.get_account_operations]

lemma lookupA_insertA_self {β : Type} (k : Nat) (v : β) (m : List (Nat × β)) :
    lookupA k (insertA k v m) = some v := by
  induction m with
  | nil => simp [insertA, lookupA]
  | cons p rest ih =>
    obtain ⟨k', v'⟩ := p
    by_cases h : k' = k
    · simp [insertA, h, lookupA]
    · simp [insertA, h, lookupA, ih]

lemma lookupA_insertA_ne {β : Type} (k k' : Nat) (v : β) (m : List (Nat × β)) (h : k ≠ k') :
    lookupA k' (insertA k v m) = lookupA k' m := by
  induction m with
  | nil => simp [insertA, lookupA, h]
  | cons p rest ih =>
    obtain ⟨k₀, v₀⟩ := p
    by_cases h0 : k₀ = k
    · subst h0
      simp [insertA, lookupA, h]
    · simp [insertA, h0, lookupA, ih]

lemma i64Wrap_eq_self (x : Int) (h1 : -(2 ^ 63) ≤ x) (h2 : x < 2 ^ 63) : i64Wrap x = x := by
  unfold i64Wrap
  omega

lemma i64Wrap_lb (x : Int) : -(2 ^ 63) ≤ i64Wrap x := by
  unfold i64Wrap
  omega

lemma i64Wrap_ub (x : Int) : i64Wrap x < 2 ^ 63 := by
  unfold i64Wrap
  omega

lemma i64Wrap_emod (x : Int) : i64Wrap x % 2 ^ 64 = x % 2 ^ 64 := by
  unfold i64Wrap
  omega

lemma u64ToI64_emod (u : Nat) : u64ToI64 u % 2 ^ 64 = (u : Int) % 2 ^ 64 := by
  unfold u64ToI64
  split <;> omega

/-- Claim C10 counterexample: account 1 has balance 1 < 2^63 and the deposit
amount 2^64 - 1 is at least 2^63, yet the deposit SUCCEEDS (the cast delta is
-1, so the computed balance is 0, not negative): the balance drops to 0 and a
Deposit entry is logged, where the claim predicts InsufficientFunds and no
log entry. -/
theorem deposit_large_amount_counterexample :
    Bank.deposit bankC10 1 (2 ^ 64 - 1) 3 =
      (.ok 3, ⟨[(1, ⟨1, 0⟩)], OperationsLog.empty.log_operation ⟨3, .Deposit 1 (2 ^ 64 - 1)⟩⟩) ∧
    lookupA 1 bankC10.accounts = some ⟨1, 1⟩ ∧
    (Bank.deposit bankC10 1 (2 ^ 64 - 1) 3).2.operations_log.operations =
      [⟨3, .Deposit 1 (2 ^ 64 - 1)⟩] := by decide

/-- Claim C10 amended: for a registered account with balance < 2^63 and an
amount in [2^63, 2^64), the deposit adds the negative two's-complement
reinterpretation amount - 2^64 of the amount: it fails with InsufficientFunds
and logs nothing exactly when balance + amount < 2^64, and otherwise succeeds,
sets the balance to balance + amount - 2^64 (a decrease), and logs the
Deposit. -/
theorem deposit_large_amount_amended (b : Bank) (id : AccountID) (acct : Account)
    (amount : Nat) (oid : OperationID)
    (hacct : lookupA id b.accounts = some acct) (hbal : acct.balance < 2 ^ 63)
    (hlo : 2 ^ 63 ≤ amount) (hhi : amount < 2 ^ 64) :
    (acct.balance + amount < 2 ^ 64 →
      b.deposit id amount oid = (.error .InsufficientFunds, b)) ∧
    (2 ^ 64 ≤ acct.balance + amount →
      b.deposit id amount oid =
        (.ok oid, ⟨insertA id ⟨acct.id, acct.balance + amount - 2 ^ 64⟩ b.accounts,
          b.operations_log.log_operation ⟨oid, .Deposit id amount⟩⟩)) := by
  have hu : u64ToI64 amount = (amount : Int) - 2 ^ 64 := by
    unfold u64ToI64
    rw [if_neg]
    omega
  have hb : u64ToI64 acct.balance = (acct.balance : Int) := by
    unfold u64ToI64
    rw [if_pos hbal]
  have hadd : i64Add (u64ToI64 acct.balance) (u64ToI64 amount) =
      (acct.balance : Int) + ((amount : Int) - 2 ^ 64) := by
    rw [hu, hb]
    unfold i64Add
    apply i64Wrap_eq_self
    · omega
    · omega
  have hne : u64ToI64 amount ≠ 0 := by
    rw [hu]
    omega
  constructor
  · intro hlt
    have hneg : i64Add (u64ToI64 acct.balance) (u64ToI64 amount) < 0 := by
      rw [hadd]
      omega
    simp [Bank.deposit, Bank.do_deposit, Bank.update_account_balance_by_amount,
      hne, hacct, hneg]
  · intro hge
    have hnn : ¬ i64Add (u64ToI64 acct.balance) (u64ToI64 amount) < 0 := by
      rw [hadd]
      omega
    have hval : i64ToU64 (i64Add (u64ToI64 acct.balance) (u64ToI64 amount)) =
        acct.balance + amount - 2 ^ 64 := by
      rw [hadd]
      unfold i64ToU64
      omega
    simp [Bank.deposit, Bank.do_deposit, Bank.update_account_balance_by_amount,
      hne, hacct, hnn, hval]

/-- Witness for C10 amended, failing branch: balance 1, amount 2^63, so
balance + amount < 2^64 and the deposit fails with InsufficientFunds leaving
the bank unchanged. -/
theorem deposit_large_amount_amended_witness :
    Bank.deposit bankC10 1 (2 ^ 63) 3 = (.error .InsufficientFunds, bankC10) :=
  (deposit_large_amount_amended bankC10 1 ⟨1, 1⟩ (2 ^ 63) 3 (by decide) (by decide)
    (by decide) (by decide)).1 (by decide)

/-- Claim C4 counterexample: sender 1 has balance 5, receiver 2 is absent, the
amount is 2^64 - 3 (cast delta -3, so the debit leg ADDS 3). The debit
succeeds raising the sender to 8, the credit fails NotFound, nothing is
logged, and the debit is kept: the sender balance after the call is 8, not
5 reduced by the amount as the claim states. -/
theorem transfer_no_rollback_counterexample :
    Bank.transfer bankC4 1 2 (2 ^ 64 - 3) 99 =
      (.error .NotFound, ⟨[(1, ⟨1, 8⟩)], OperationsLog.empty⟩) ∧
    lookupA 1 bankC4.accounts = some ⟨1, 5⟩ ∧
    lookupA 1 (Bank.transfer bankC4 1 2 (2 ^ 64 - 3) 99).2.accounts = some ⟨1, 8⟩ := by decide

/-- Claim C4 amended: for transfer(sender, receiver, amount) with sender and
receiver distinct: if the sender debit fails, the call returns that error
with the bank unchanged (no balance change, no log entry); if the debit
succeeds but the receiver is absent, the call returns NotFound against the
post-debit state: nothing is logged and the sender keeps its post-debit
balance, which is the old balance reduced by exactly amount when
0 < amount <= 2^63 (for a u64 balance), and in general the old balance minus
amount modulo 2^64. -/
theorem transfer_no_rollback_amended (b : Bank) (sid rid : AccountID) (amount : Nat)
    (oid : OperationID) (hne : sid ≠ rid) :
    (∀ e b₁, b.update_account_balance_by_amount sid (i64Neg (u64ToI64 amount)) = (.error e, b₁) →
      b.transfer sid rid amount oid = (.error e, b)) ∧
    (∀ b₁, b.update_account_balance_by_amount sid (i64Neg (u64ToI64 amount)) = (.ok (), b₁) →
      lookupA rid b₁.accounts = none →
      b.transfer sid rid amount oid = (.error .NotFound, b₁) ∧
      b₁.operations_log = b.operations_log ∧
      ∀ acct, lookupA sid b.accounts = some acct →
        ∃ acct', lookupA sid b₁.accounts = some acct' ∧ acct'.id = acct.id ∧
          (acct'.balance + amount) % 2 ^ 64 = acct.balance % 2 ^ 64 ∧
          (acct.balance < 2 ^ 64 → 0 < amount → amount ≤ 2 ^ 63 →
            acct'.balance + amount = acct.balance)) := by
  constructor
  · intro e b₁ herr
    have hb₁ : b₁ = b := update_error_state b sid (i64Neg (u64ToI64 amount)) e b₁ herr
    subst hb₁
    simp [Bank.transfer, Bank.do_transfer, hne, herr]
  · intro b₁ hok hrid
    have hchar := update_ok_state b sid (i64Neg (u64ToI64 amount)) b₁ hok
    obtain ⟨hdne, acct₀, hacct₀, hnn₀, hb₁⟩ := hchar
    have hcredit : b₁.update_account_balance_by_amount rid (u64ToI64 amount) =
        (.error .NotFound, b₁) := by
      have hune : u64ToI64 amount ≠ 0 := by
        intro h0
        apply hdne
        unfold i64Neg
        rw [h0]
        simp [i64Wrap]
      simp [Bank.update_account_balance_by_amount, hune, hrid]
    refine ⟨?_, ?_, ?_⟩
    · simp [Bank.transfer, Bank.do_transfer, hne, hok, hcredit]
    · rw [hb₁]
    · intro acct hacct
      have heq : acct₀ = acct := by
        rw [hacct] at hacct₀
        exact (Option.some.inj hacct₀).symm
      subst heq
      have h1 : i64Add (u64ToI64 acct₀.balance) (i64Neg (u64ToI64 amount)) % 2 ^ 64 =
          ((acct₀.balance : Int) - (amount : Int)) % 2 ^ 64 := by
        unfold i64Add
        rw [i64Wrap_emod]
        have h2 : i64Neg (u64ToI64 amount) % 2 ^ 64 = (-(amount : Int)) % 2 ^ 64 := by
          unfold i64Neg
          rw [i64Wrap_emod]
          have := u64ToI64_emod amount
          omega
        have h3 := u64ToI64_emod acct₀.balance
        omega
      have hlb := i64Wrap_lb (u64ToI64 acct₀.balance + i64Neg (u64ToI64 amount))
      have hub := i64Wrap_ub (u64ToI64 acct₀.balance + i64Neg (u64ToI64 amount))
      refine ⟨⟨acct₀.id, i64ToU64 (i64Add (u64ToI64 acct₀.balance) (i64Neg (u64ToI64 amount)))⟩,
        ?_, rfl, ?_, ?_⟩
      · rw [hb₁]
        exact lookupA_insertA_self sid _ b.accounts
      · dsimp only
        unfold i64Add at hnn₀ h1 ⊢
        unfold i64ToU64
        omega
      · intro hu64 hpos hle
        dsimp only
        unfold i64Add at hnn₀ h1 ⊢
        unfold i64ToU64
        omega

/-- Witness for C4 amended: sender 1 with balance 5, absent receiver 2,
amount 3: the debit succeeds (balance 2), the credit fails NotFound, and the
transfer returns NotFound with the debited state kept. -/
theorem transfer_no_rollback_amended_witness :
    Bank.transfer bankC4 1 2 3 9 = (.error .NotFound, ⟨[(1, ⟨1, 2⟩)], OperationsLog.empty⟩) := by
  have h := (transfer_no_rollback_amended bankC4 1 2 3 9 (by decide)).2
    ⟨[(1, ⟨1, 2⟩)], OperationsLog.empty⟩ (by decide) (by decide)
  exact h.1

lemma lookupA_logForAccount (aid : AccountID) (oid : OperationID)
    (m : List (AccountID × List OperationID)) (a : AccountID) :
    (lookupA a (logForAccount aid oid m)).getD [] =
      (lookupA a m).getD [] ++ (if a = aid then [oid] else []) := by
  unfold logForAccount
  by_cases h : a = aid
  · subst h
    rw [lookupA_insertA_self]
    simp
  · rw [lookupA_insertA_ne aid a _ m (Ne.symm h)]
    simp [h]

lemma log_operation_operations (L : OperationsLog) (op : Operation) :
    (L.log_operation op).operations = L.operations ++ [op] := by
  unfold OperationsLog.log_operation
  rcases op with ⟨oid, k⟩
  cases k <;> rfl

lemma log_operation_by_id (L : OperationsLog) (op : Operation) :
    (L.log_operation op).operations_by_id =
      insertA op.id L.operations.length L.operations_by_id := by
  unfold OperationsLog.log_operation
  rcases op with ⟨oid, k⟩
  cases k <;> rfl

lemma log_operation_accounts (L : OperationsLog) (op : Operation) (a : AccountID) :
    (lookupA a (L.log_operation op).accounts_operations).getD [] =
      (lookupA a L.accounts_operations).getD [] ++ op.kind.entriesFor a op.id := by
  unfold OperationsLog.log_operation
  rcases op with ⟨oid, k⟩
  cases k with
  | Register id bal => rw [lookupA_logForAccount]; rfl
  | Deposit id amt => rw [lookupA_logForAccount]; rfl
  | Withdraw id amt => rw [lookupA_logForAccount]; rfl
  | Transfer s r amt =>
    show (lookupA a (logForAccount r oid (logForAccount s oid L.accounts_operations))).getD [] = _
    rw [lookupA_logForAccount, lookupA_logForAccount]
    rw [List.append_assoc]
    rfl

lemma buildLog_append (ops : List Operation) (op : Operation) :
    buildLog (ops ++ [op]) = (buildLog ops).log_operation op := by
  simp [buildLog, List.foldl_append]

lemma buildLog_operations (ops : List Operation) : (buildLog ops).operations = ops := by
  induction ops using List.reverseRecOn with
  | nil => rfl
  | append_singleton ops op ih => rw [buildLog_append, log_operation_operations, ih]

lemma buildLog_account_ids (ops : List Operation) (a : AccountID) :
    (lookupA a (buildLog ops).accounts_operations).getD [] =
      (ops.map fun op => op.kind.entriesFor a op.id).flatten := by
  induction ops using List.reverseRecOn with
  | nil => rfl
  | append_singleton ops op ih =>
    rw [buildLog_append, log_operation_accounts, ih]
    simp

lemma buildLog_get (ops : List Operation) (hnd : (ops.map Operation.id).Nodup) :
    ∀ op ∈ ops, (buildLog ops).get op.id = some op := by
  induction ops using List.reverseRecOn with
  | nil => intro op h; simp at h
  | append_singleton ops op₀ ih =>
    intro op hop
    rw [List.map_append] at hnd
    have hnd' : (ops.map Operation.id).Nodup := (List.nodup_append.mp hnd).1
    have hdisj := (List.nodup_append.mp hnd).2.2
    have hnotin : op₀.id ∉ ops.map Operation.id := by
      intro hmem
      exact hdisj hmem (by simp)
    rw [buildLog_append]
    unfold OperationsLog.get
    rw [log_operation_by_id, log_operation_operations, buildLog_operations]
    rcases List.mem_append.mp hop with h | h
    · have hne : op₀.id ≠ op.id := by
        intro he
        apply hnotin
        rw [he]
        exact List.mem_map_of_mem Operation.id h
      rw [lookupA_insertA_ne _ _ _ _ hne]
      have hold := ih hnd' op h
      unfold OperationsLog.get at hold
      rw [buildLog_operations] at hold
      rcases hbind : lookupA op.id (buildLog ops).operations_by_id with _ | idx
      · rw [hbind] at hold
        simp at hold
      · rw [hbind] at hold
        simp only [Option.some_bind] at hold
        have hlt : idx < ops.length := by
          by_contra hge
          rw [List.getElem?_eq_none (by omega)] at hold
          simp at hold
        simp only [Option.some_bind]
        rw [List.getElem?_append_left hlt]
        exact hold
    · have hop₀ : op = op₀ := by simpa using h
      subst hop₀
      rw [lookupA_insertA_self]
      simp only [Option.some_bind]
      rw [List.getElem?_append_right (le_refl _)]
      simp

lemma mapGet_eq_some (g : OperationID → Option Operation) (l : List Operation)
    (h : ∀ op ∈ l, g op.id = some op) : mapGet g (l.map Operation.id) = some l := by
  induction l with
  | nil => rfl
  | cons op rest ih =>
    simp only [List.map_cons]
    unfold mapGet
    rw [h op (by simp), ih fun o ho => h o (by simp [ho])]
    rfl

lemma entriesFor_references (a : AccountID) (oid : OperationID) (k : OperationKind)
    (hk : ∀ s r m, k = .Transfer s r m → s ≠ r) :
    k.entriesFor a oid = if k.references a then [oid] else [] := by
  cases k with
  | Register id bal =>
    by_cases h : a = id
    · subst h
      simp [OperationKind.entriesFor, OperationKind.references]
    · simp [OperationKind.entriesFor, OperationKind.references, h, Ne.symm h]
  | Deposit id amt =>
    by_cases h : a = id
    · subst h
      simp [OperationKind.entriesFor, OperationKind.references]
    · simp [OperationKind.entriesFor, OperationKind.references, h, Ne.symm h]
  | Withdraw id amt =>
    by_cases h : a = id
    · subst h
      simp [OperationKind.entriesFor, OperationKind.references]
    · simp [OperationKind.entriesFor, OperationKind.references, h, Ne.symm h]
  | Transfer s r amt =>
    have hsr : s ≠ r := hk s r amt rfl
    by_cases hs : a = s
    · subst hs
      simp [OperationKind.entriesFor, OperationKind.references, hsr]
    · by_cases hr : a = r
      · subst hr
        simp [OperationKind.entriesFor, OperationKind.references, hs, Ne.symm hs]
      · simp [OperationKind.entriesFor, OperationKind.references, hs, hr,
          Ne.symm hs, Ne.symm hr]

lemma join_entriesFor (ops : List Operation) (a : AccountID)
    (htr : ∀ op ∈ ops, ∀ s r m, op.kind = .Transfer s r m → s ≠ r) :
    (ops.map fun op => op.kind.entriesFor a op.id).flatten =
      (ops.filter fun op => op.kind.references a).map Operation.id := by
  induction ops with
  | nil => rfl
  | cons op rest ih =>
    simp only [List.map_cons, List.flatten_cons, List.filter_cons]
    rw [entriesFor_references a op.id op.kind (htr op (by simp))]
    rw [ih fun o ho s r m hm => htr o (by simp [ho]) s r m hm]
    by_cases h : op.kind.references a
    · simp [h]
    · simp [h]

lemma do_register_log (b : Bank) (a : Account) :
    (b.do_register_account a).2.operations_log = b.operations_log := by
  unfold Bank.do_register_account
  split <;> rfl

lemma update_log (b : Bank) (id : AccountID) (amt : Int) :
    (b.update_account_balance_by_amount id amt).2.operations_log = b.operations_log := by
  unfold Bank.update_account_balance_by_amount
  split
  · rfl
  · split
    · rfl
    · dsimp only
      split <;> rfl

lemma do_transfer_log (b : Bank) (s r : AccountID) (amt : Nat) :
    (b.do_transfer s r amt).2.operations_log = b.operations_log := by
  unfold Bank.do_transfer
  split
  · rfl
  · rcases hu : b.update_account_balance_by_amount s (i64Neg (u64ToI64 amt)) with ⟨res, b₁⟩
    have hb₁ : b₁.operations_log = b.operations_log := by
      have hh := update_log b s (i64Neg (u64ToI64 amt))
      rw [hu] at hh
      exact hh
    cases res with
    | error e => exact hb₁
    | ok u =>
      dsimp only
      have h2 := update_log b₁ r (u64ToI64 amt)
      rw [h2, hb₁]

lemma applyCmd_ok_register (b b' : Bank) (a : Account) (oid₀ oid : OperationID)
    (h : b.register_account a oid₀ = (.ok oid, b')) :
    Bank.restore_step b ⟨oid, .Register a.id a.balance⟩ = .ok b' ∧
    b'.operations_log = b.operations_log.log_operation ⟨oid, .Register a.id a.balance⟩ := by
  unfold Bank.register_account at h
  rcases hda : b.do_register_account a with ⟨res, b₁⟩
  rw [hda] at h
  cases res with
  | error e => simp at h
  | ok u =>
    dsimp only at h
    simp only [Prod.mk.injEq, Except.ok.injEq] at h
    obtain ⟨h1, h2⟩ := h
    subst h1
    subst h2
    have hlog : b₁.operations_log = b.operations_log := by
      have hh := do_register_log b a
      rw [hda] at hh
      exact hh
    constructor
    · unfold Bank.restore_step
      dsimp only
      have heta : (⟨a.id, a.balance⟩ : Account) = a := rfl
      rw [heta, hda]
    · dsimp only
      rw [hlog]

lemma applyCmd_ok_deposit (b b' : Bank) (id : AccountID) (amt : Nat) (oid₀ oid : OperationID)
    (h : b.deposit id amt oid₀ = (.ok oid, b')) :
    Bank.restore_step b ⟨oid, .Deposit id amt⟩ = .ok b' ∧
    b'.operations_log = b.operations_log.log_operation ⟨oid, .Deposit id amt⟩ := by
  unfold Bank.deposit at h
  rcases hd : b.do_deposit id amt with ⟨res, b₁⟩
  rw [hd] at h
  cases res with
  | error e => simp at h
  | ok u =>
    dsimp only at h
    simp only [Prod.mk.injEq, Except.ok.injEq] at h
    obtain ⟨h1, h2⟩ := h
    subst h1
    subst h2
    have hlog : b₁.operations_log = b.operations_log := by
      have hh := update_log b id (u64ToI64 amt)
      rw [show b.do_deposit id amt = b.update_account_balance_by_amount id (u64ToI64 amt) from rfl]
        at hd
      rw [hd] at hh
      exact hh
    constructor
    · unfold Bank.restore_step
      dsimp only
      rw [hd]
    · dsimp only
      rw [hlog]

lemma applyCmd_ok_withdraw (b b' : Bank) (id : AccountID) (amt : Nat) (oid₀ oid : OperationID)
    (h : b.withdraw id amt oid₀ = (.ok oid, b')) :
    Bank.restore_step b ⟨oid, .Withdraw id amt⟩ = .ok b' ∧
    b'.operations_log = b.operations_log.log_operation ⟨oid, .Withdraw id amt⟩ := by
  unfold Bank.withdraw at h
  rcases hd : b.do_withdraw id amt with ⟨res, b₁⟩
  rw [hd] at h
  cases res with
  | error e => simp at h
  | ok u =>
    dsimp only at h
    simp only [Prod.mk.injEq, Except.ok.injEq] at h
    obtain ⟨h1, h2⟩ := h
    subst h1
    subst h2
    have hlog : b₁.operations_log = b.operations_log := by
      have hh := update_log b id (i64Neg (u64ToI64 amt))
      rw [show b.do_withdraw id amt =
        b.update_account_balance_by_amount id (i64Neg (u64ToI64 amt)) from rfl] at hd
      rw [hd] at hh
      exact hh
    constructor
    · unfold Bank.restore_step
      dsimp only
      rw [hd]
    · dsimp only
      rw [hlog]

lemma applyCmd_ok_transfer (b b' : Bank) (sid rid : AccountID) (amt : Nat) (oid₀ oid : OperationID)
    (h : b.transfer sid rid amt oid₀ = (.ok oid, b')) :
    Bank.restore_step b ⟨oid, .Transfer sid rid amt⟩ = .ok b' ∧
    b'.operations_log = b.operations_log.log_operation ⟨oid, .Transfer sid rid amt⟩ ∧
    sid ≠ rid := by
  have hne : sid ≠ rid := by
    intro he
    subst he
    unfold Bank.transfer Bank.do_transfer at h
    simp at h
  unfold Bank.transfer at h
  rcases hd : b.do_transfer sid rid amt with ⟨res, b₁⟩
  rw [hd] at h
  cases res with
  | error e => simp at h
  | ok u =>
    dsimp only at h
    simp only [Prod.mk.injEq, Except.ok.injEq] at h
    obtain ⟨h1, h2⟩ := h
    subst h1
    subst h2
    have hlog : b₁.operations_log = b.operations_log := by
      have hh := do_transfer_log b sid rid amt
      rw [hd] at hh
      exact hh
    refine ⟨?_, ?_, hne⟩
    · unfold Bank.restore_step
      dsimp only
      rw [hd]
    · dsimp only
      rw [hlog]

lemma applyCmd_ok (b b' : Bank) (c : Cmd) (oid : OperationID)
    (h : b.applyCmd c = (.ok oid, b')) :
    Bank.restore_step b ⟨oid, c.opKind⟩ = .ok b' ∧
    b'.operations_log = b.operations_log.log_operation ⟨oid, c.opKind⟩ ∧
    (∀ s r m, c.opKind = .Transfer s r m → s ≠ r) := by
  cases c with
  | register a oid₀ =>
    obtain ⟨h1, h2⟩ := applyCmd_ok_register b b' a oid₀ oid h
    exact ⟨h1, h2, fun s r m hm => by simp [Cmd.opKind] at hm⟩
  | deposit id amt oid₀ =>
    obtain ⟨h1, h2⟩ := applyCmd_ok_deposit b b' id amt oid₀ oid h
    exact ⟨h1, h2, fun s r m hm => by simp [Cmd.opKind] at hm⟩
  | withdraw id amt oid₀ =>
    obtain ⟨h1, h2⟩ := applyCmd_ok_withdraw b b' id amt oid₀ oid h
    exact ⟨h1, h2, fun s r m hm => by simp [Cmd.opKind] at hm⟩
  | transfer sid rid amt oid₀ =>
    obtain ⟨h1, h2, hne⟩ := applyCmd_ok_transfer b b' sid rid amt oid₀ oid h
    refine ⟨h1, h2, ?_⟩
    intro s r m hm
    simp only [Cmd.opKind, OperationKind.Transfer.injEq] at hm
    obtain ⟨hs, hr, -⟩ := hm
    subst hs
    subst hr
    exact hne

lemma restoreFrom_append (b : Bank) (l₁ l₂ : List Operation) :
    Bank.restoreFrom b (l₁ ++ l₂) =
      match Bank.restoreFrom b l₁ with
      | .error e => .error e
      | .ok b₁ => Bank.restoreFrom b₁ l₂ := by
  induction l₁ generalizing b with
  | nil => rfl
  | cons op rest ih =>
    show Bank.restoreFrom b (op :: (rest ++ l₂)) = _
    rw [show Bank.restoreFrom b (op :: (rest ++ l₂)) =
      (match Bank.restore_step b op with
       | Except.error e => Except.error e
       | Except.ok b₁ => Bank.restoreFrom b₁ (rest ++ l₂)) from rfl]
    rw [show Bank.restoreFrom b (op :: rest) =
      (match Bank.restore_step b op with
       | Except.error e => Except.error e
       | Except.ok b₁ => Bank.restoreFrom b₁ rest) from rfl]
    cases hs : Bank.restore_step b op with
    | error e => rfl
    | ok b₁ => exact ih b₁

/-- Every reachable bank's log is the replay of its own operation sequence,
and every logged Transfer has distinct sender and receiver. -/
lemma reachable_inv (b : Bank) (h : Reachable b) :
    b.operations_log = buildLog b.operations_log.operations ∧
    (∀ op ∈ b.operations_log.operations, ∀ s r m, op.kind = .Transfer s r m → s ≠ r) := by
  induction h with
  | base =>
    refine ⟨rfl, ?_⟩
    intro op hop
    simp [Bank.default, OperationsLog.empty] at hop
  | @step b₀ b₁ c oid hr happ ih =>
    obtain ⟨hres, hlog, htr⟩ := applyCmd_ok b₀ b₁ c oid happ
    obtain ⟨ih1, ih2⟩ := ih
    constructor
    · rw [hlog, log_operation_operations, buildLog_append, ← ih1]
    · intro op hop s r m hm
      rw [hlog, log_operation_operations] at hop
      rcases List.mem_append.mp hop with hold | hnew
      · exact ih2 op hold s r m hm
      · have hop₀ : op = ⟨oid, c.opKind⟩ := by simpa using hnew
        subst hop₀
        exact htr s r m hm

/-- Claim C1: for every bank reachable by a sequence of successful
register_account/deposit/withdraw/transfer calls, Bank::restore applied to
get_all_operations() succeeds and rebuilds a bank equal to the original in
accounts (same ids and balances) and in the whole log (same operations, same
ids, same order): the state is literally identical. -/
theorem restore_all_operations_roundtrip (b : Bank) (h : Reachable b) :
    Bank.restore b.get_all_operations = .ok b := by
  induction h with
  | base => rfl
  | @step b₀ b₁ c oid hr happ ih =>
    obtain ⟨hres, hlog, -⟩ := applyCmd_ok b₀ b₁ c oid happ
    unfold Bank.restore Bank.get_all_operations OperationsLog.get_all_operations at ih ⊢
    rw [hlog, log_operation_operations, restoreFrom_append, ih]
    show (match Bank.restore_step b₀ ⟨oid, c.opKind⟩ with
      | Except.error e => Except.error e
      | Except.ok bb => Bank.restoreFrom bb []) = .ok b₁
    rw [hres]
    rfl

/-- Witness for C1 at the concrete two-operation bank bankW. -/
theorem restore_all_operations_roundtrip_witness :
    Bank.restore bankW.get_all_operations = .ok bankW := by
  have h1 : Bank.applyCmd Bank.default (Cmd.register ⟨1, 100⟩ 10) = (.ok 10, bankW1) := by
    decide
  have h2 : Bank.applyCmd bankW1 (Cmd.deposit 1 50 11) = (.ok 11, bankW) := by decide
  exact restore_all_operations_roundtrip bankW
    (Reachable.step (Reachable.step Reachable.base h1) h2)

/-- Claim C7: on every reachable bank whose operation ids are pairwise
distinct (ids are freshly generated per append), get_account_operations(a)
returns exactly the subsequence of get_all_operations() whose kind references
a, in the same global order. -/
theorem account_operations_filter_all (b : Bank) (a : AccountID) (h : Reachable b)
    (hnd : (b.get_all_operations.map Operation.id).Nodup) :
    b.get_account_operations a =
      some (b.get_all_operations.filter fun op => op.kind.references a) := by
  obtain ⟨hlog, htr⟩ := reachable_inv b h
  unfold Bank.get_all_operations OperationsLog.get_all_operations at hnd ⊢
  unfold Bank.get_account_operations OperationsLog.get_account_operations
  rw [hlog, buildLog_account_ids, buildLog_operations,
    join_entriesFor _ _ htr]
  exact mapGet_eq_some _ _ fun op hop =>
    buildLog_get b.operations_log.operations hnd op (List.mem_of_mem_filter hop)

/-- Witness for C7 at the concrete two-operation bank bankW and account 1. -/
theorem account_operations_filter_all_witness :
    Bank.get_account_operations bankW 1 =
      some (bankW.get_all_operations.filter fun op => op.kind.references 1) := by
  have h1 : Bank.applyCmd Bank.default (Cmd.register ⟨1, 100⟩ 10) = (.ok 10, bankW1) := by
    decide
  have h2 : Bank.applyCmd bankW1 (Cmd.deposit 1 50 11) = (.ok 11, bankW) := by decide
  exact account_operations_filter_all bankW 1
    (Reachable.step (Reachable.step Reachable.base h1) h2) (by decide)

end BankSpec
